import Mathlib

/-!
Verification of the magnetic-model caching subsystem of ViRES-Server
(`vires/magnetic_models/models.py`) and of the cached-product management
command (`vires/management/commands/vires_update_cached_product.py`).

Python dictionaries with string keys are embedded as association lists
(insertion order preserved, in-place replacement on update, exactly like
CPython dicts).  Model instances are embedded as natural-number identities
allocated from a monotone counter held in the cache state, so that Python
reference identity of freshly built objects becomes decidable equality of
the allocated numbers.  File-system effects (fingerprints observed by the
change monitor, loader success and computed provenance) are packaged in a
`World` value passed to every call: two calls made while the files are
untouched are two calls in the same `World`.
-/

set_option autoImplicit false

namespace ViresModels

universe u

/-- Lookup in an association list: the embedding of `dict.get(key)` /
`dict[key]` for a Python dict with string keys. -/
def alookup {α : Type u} (k : String) : List (String × α) → Option α
  | [] => none
  | (k1, v1) :: rest => if k1 = k then some v1 else alookup k rest

/-- Update of an association list: `dict[key] = value`.  A present key is
overwritten in place (CPython keeps the original insertion position), an
absent key is appended at the end. -/
def aupdate {α : Type u} (k : String) (v : α) : List (String × α) → List (String × α)
  | [] => [(k, v)]
  | (k1, v1) :: rest =>
      if k1 = k then (k, v) :: rest else (k1, v1) :: aupdate k v rest

theorem alookup_aupdate_self {α : Type u} (k : String) (v : α) :
    ∀ l : List (String × α), alookup k (aupdate k v l) = some v := by
  intro l
  induction l with
  | nil => simp [alookup, aupdate]
  | cons hd tl ih =>
      obtain ⟨k1, v1⟩ := hd
      by_cases h : k1 = k
      · simp [alookup, aupdate, h]
      · simp [alookup, aupdate, h, ih]

theorem alookup_aupdate_ne {α : Type u} {k k1 : String} (v : α) (h : k1 ≠ k) :
    ∀ l : List (String × α), alookup k (aupdate k1 v l) = alookup k l := by
  intro l
  induction l with
  | nil => simp [alookup, aupdate, h]
  | cons hd tl ih =>
      obtain ⟨k2, v2⟩ := hd
      by_cases h2 : k2 = k1
      · subst h2
        simp [alookup, aupdate, h]
      · by_cases h3 : k2 = k <;> simp [alookup, aupdate, h2, h3, Ne.symm h, ih]

theorem aupdate_self {α : Type u} {k : String} {v : α} :
    ∀ {l : List (String × α)}, alookup k l = some v → aupdate k v l = l := by
  intro l
  induction l with
  | nil => intro h; simp [alookup] at h
  | cons hd tl ih =>
      obtain ⟨k1, v1⟩ := hd
      intro h
      by_cases h1 : k1 = k
      · subst h1
        simp [alookup] at h
        simp [aupdate, h]
      · simp [alookup, h1] at h
        simp [aupdate, h1, ih h]

theorem alookup_mem {α : Type u} {k : String} {v : α} :
    ∀ {l : List (String × α)}, alookup k l = some v → (k, v) ∈ l := by
  intro l
  induction l with
  | nil => intro h; simp [alookup] at h
  | cons hd tl ih =>
      obtain ⟨k1, v1⟩ := hd
      intro h
      by_cases h1 : k1 = k
      · subst h1
        simp [alookup] at h
        simp [h]
      · simp [alookup, h1] at h
        exact List.mem_cons_of_mem _ (ih h)

/-- A file fingerprint as observed at one moment: `some t` is the observed
modification metadata, `none` records that the file could not be observed
(it is missing or unreadable), a distinct observation that mismatches every
previously stored fingerprint. -/
abbrev Fingerprint := Option Nat

/-- The file-system/environment snapshot a single call runs against.
`fingerprint` is what the change monitor observes per path; `buildOk` tells
whether the loader bound to a given file list succeeds (a Python loader
either returns a model object or raises); `sourcesOf` is the provenance
metadata recomputed from the model files (`ModelFactory.sources`). -/
structure World where
  fingerprint : String → Fingerprint
  buildOk : List String → Bool
  sourcesOf : List String → Nat

/-- Modelled from the spec: `FileChangeMonitor` (defined in
`vires/file_util.py`, which is not among the given sources) stores, per
path, the last observed fingerprint. -/
structure FileChangeMonitor where
  fingerprints : List (String × Fingerprint)
deriving DecidableEq, Repr

/-- Modelled from the spec: `FileChangeMonitor.changed(*paths)` compares the
current fingerprint of every path against the stored one; any mismatch
(including a fingerprint never seen before) makes the call return `True`,
and the stored fingerprint set is updated to the newly observed values. -/
def FileChangeMonitor.changed (fp : String → Fingerprint) (paths : List String)
    (m : FileChangeMonitor) : Bool × FileChangeMonitor :=
  (paths.any fun p => alookup p m.fingerprints != some (fp p),
   ⟨paths.foldl (fun acc p => aupdate p (fp p) acc) m.fingerprints⟩)

theorem alookup_foldl_aupdate (fp : String → Fingerprint) (p : String) :
    ∀ (paths : List String) (l : List (String × Fingerprint)),
      alookup p (paths.foldl (fun acc q => aupdate q (fp q) acc) l) =
        if p ∈ paths then some (fp p) else alookup p l := by
  intro paths
  induction paths with
  | nil => intro l; simp
  | cons q rest ih =>
      intro l
      simp only [List.foldl_cons, ih]
      by_cases hmem : p ∈ rest
      · simp [hmem]
      · by_cases hpq : p = q
        · subst hpq
          simp [hmem, alookup_aupdate_self]
        · simp [hmem, hpq, alookup_aupdate_ne _ (Ne.symm hpq)]

theorem foldl_aupdate_id (fp : String → Fingerprint) :
    ∀ (paths : List String) (l : List (String × Fingerprint)),
      (∀ q ∈ paths, alookup q l = some (fp q)) →
      paths.foldl (fun acc q => aupdate q (fp q) acc) l = l := by
  intro paths
  induction paths with
  | nil => intro l _; simp
  | cons q rest ih =>
      intro l h
      have hq : aupdate q (fp q) l = l := aupdate_self (h q (by simp))
      simp only [List.foldl_cons, hq]
      exact ih l fun r hr => h r (by simp [hr])

theorem changed_false_iff (fp : String → Fingerprint) (paths : List String)
    (m : FileChangeMonitor) :
    (FileChangeMonitor.changed fp paths m).1 = false ↔
      ∀ q ∈ paths, alookup q m.fingerprints = some (fp q) := by
  simp [FileChangeMonitor.changed, List.any_eq_false]

theorem changed_true_of_mismatch {fp : String → Fingerprint}
    {paths : List String} {m : FileChangeMonitor} {p : String}
    (hp : p ∈ paths) (hmiss : alookup p m.fingerprints ≠ some (fp p)) :
    (FileChangeMonitor.changed fp paths m).1 = true := by
  simp only [FileChangeMonitor.changed, List.any_eq_true]
  exact ⟨p, hp, by simpa using hmiss⟩

theorem changed_snd_lookup (fp : String → Fingerprint) (paths : List String)
    (m : FileChangeMonitor) (p : String) :
    alookup p (FileChangeMonitor.changed fp paths m).2.fingerprints =
      if p ∈ paths then some (fp p) else alookup p m.fingerprints :=
  alookup_foldl_aupdate fp p paths m.fingerprints

theorem changed_of_unchanged (fp : String → Fingerprint) (paths : List String)
    (m : FileChangeMonitor)
    (h : ∀ q ∈ paths, alookup q m.fingerprints = some (fp q)) :
    FileChangeMonitor.changed fp paths m = (false, m) := by
  have h1 : (FileChangeMonitor.changed fp paths m).1 = false :=
    (changed_false_iff fp paths m).2 h
  have h2 : (FileChangeMonitor.changed fp paths m).2 = m := by
    simp only [FileChangeMonitor.changed]
    exact congrArg FileChangeMonitor.mk (foldl_aupdate_id fp paths m.fingerprints h)
  calc FileChangeMonitor.changed fp paths m
      = ((FileChangeMonitor.changed fp paths m).1,
         (FileChangeMonitor.changed fp paths m).2) := rfl
    _ = (false, m) := by rw [h1, h2]

/-- `ModelFactory`: a loader bound to a list of model files.  `files` is the
resolved file-name list (`cached_property`, computed once and fixed) and
`tracker` the factory's private `FileChangeMonitor`.  The loader itself and
the model-file descriptors are external collaborators (eoxmagmod loaders,
`files.py` descriptor classes); their behaviour enters through the `World`,
keyed by the factory's file list. -/
structure ModelFactory where
  files : List String
  tracker : FileChangeMonitor
deriving DecidableEq, Repr

/-- `ModelFactory.model_changed`: delegate to the tracker over `files`;
returns the flag and the factory with its mutated tracker. -/
def ModelFactory.modelChanged (w : World) (f : ModelFactory) :
    Bool × ModelFactory :=
  let r := FileChangeMonitor.changed w.fingerprint f.files f.tracker
  (r.1, { f with tracker := r.2 })

/-- The mutable state of a `ModelCache` object, together with the allocation
counter `nextId` for model-instance identities and the running count
`loaderCalls` of loader invocations (each `model_factory()` call, successful
or raising, increments it). -/
structure ModelCache where
  modelAliases : List (String × String)
  factories : List (String × ModelFactory)
  cache : List (String × Nat)
  sources : List (String × Nat)
  nextId : Nat
  loaderCalls : Nat
deriving DecidableEq, Repr

/-- A Python exception escaping `get_model_with_sources`: the loader raised
inside `model_factory()`, or `self.sources[model_id]` raised `KeyError`. -/
inductive PyErr where
  | loaderError
  | keyError
deriving DecidableEq, Repr

/-- Outcome of one `get_model_with_sources` call: a normal return carrying
the `(model, sources)` pair and the post-call state, or an uncaught
exception carrying the state as mutated up to the raise. -/
inductive CallResult where
  | ok (model : Option Nat) (srcs : Option Nat) (state : ModelCache)
  | raised (err : PyErr) (state : ModelCache)
deriving DecidableEq, Repr

/-- The model component of a call outcome (`none` when the call raised). -/
def CallResult.modelOf : CallResult → Option Nat
  | .ok m _ _ => m
  | .raised _ _ => none

/-- The post-call cache state of either outcome. -/
def CallResult.stateOf : CallResult → ModelCache
  | .ok _ _ st => st
  | .raised _ st => st

/-- Whether the call raised. -/
def CallResult.isRaised : CallResult → Bool
  | .ok _ _ _ => false
  | .raised _ _ => true

/-- Alias resolution: `self.model_aliases.get(model_id, model_id)` — one
single-hop dictionary lookup with the identifier itself as default. -/
def resolveAlias (aliases : List (String × String)) (modelId : String) : String :=
  (alookup modelId aliases).getD modelId

/-- `ModelCache.get_model_with_sources`, line by line: resolve the alias;
look up the factory (absent → `(None, None)`); read the cached model; always
evaluate the `model_changed` property (this mutates the tracker even when
the entry is absent or the build later raises); if a change was detected or
no model is cached, invoke the loader — on success store model and sources
wholesale, on failure propagate with the cache and sources maps untouched;
otherwise return the cached model with the stored sources
(`self.sources[model_id]`, a `KeyError` if absent).  Models built by the
eoxmagmod loaders are ordinary objects, hence truthy: `not model` is
emptiness of the cache slot. -/
def ModelCache.getModelWithSources (w : World) (modelId : String)
    (c : ModelCache) : CallResult :=
  let rid := resolveAlias c.modelAliases modelId
  match alookup rid c.factories with
  | none => CallResult.ok none none c
  | some factory =>
      let cached := alookup rid c.cache
      let checked := ModelFactory.modelChanged w factory
      let c1 : ModelCache := { c with factories := aupdate rid checked.2 c.factories }
      if checked.1 || cached.isNone then
        let c2 : ModelCache := { c1 with loaderCalls := c1.loaderCalls + 1 }
        if w.buildOk checked.2.files then
          CallResult.ok (some c2.nextId) (some (w.sourcesOf checked.2.files))
            { c2 with
                nextId := c2.nextId + 1
                cache := aupdate rid c2.nextId c2.cache
                sources := aupdate rid (w.sourcesOf checked.2.files) c2.sources }
        else
          CallResult.raised PyErr.loaderError c2
      else
        match alookup rid c.sources with
        | some srcs => CallResult.ok cached (some srcs) c1
        | none => CallResult.raised PyErr.keyError c1

/-- Outcome of `ModelCache.get_model` (model only, sources discarded). -/
inductive ModelResult where
  | ok (model : Option Nat) (state : ModelCache)
  | raised (err : PyErr) (state : ModelCache)
deriving DecidableEq, Repr

/-- `ModelCache.get_model`: delegate and drop the sources. -/
def ModelCache.getModel (w : World) (modelId : String) (c : ModelCache) :
    ModelResult :=
  match ModelCache.getModelWithSources w modelId c with
  | .ok m _ st => ModelResult.ok m st
  | .raised e st => ModelResult.raised e st

theorem get_unknown {w : World} {modelId : String} {c : ModelCache}
    (h : alookup (resolveAlias c.modelAliases modelId) c.factories = none) :
    ModelCache.getModelWithSources w modelId c = CallResult.ok none none c := by
  simp [ModelCache.getModelWithSources, h]

theorem get_rebuild {w : World} {modelId : String} {c : ModelCache} {f : ModelFactory}
    (hf : alookup (resolveAlias c.modelAliases modelId) c.factories = some f)
    (hcond : (FileChangeMonitor.changed w.fingerprint f.files f.tracker).1 = true ∨
      alookup (resolveAlias c.modelAliases modelId) c.cache = none)
    (hbuild : w.buildOk f.files = true) :
    ModelCache.getModelWithSources w modelId c =
      CallResult.ok (some c.nextId) (some (w.sourcesOf f.files))
        { modelAliases := c.modelAliases
          factories := aupdate (resolveAlias c.modelAliases modelId)
            ⟨f.files, (FileChangeMonitor.changed w.fingerprint f.files f.tracker).2⟩
            c.factories
          cache := aupdate (resolveAlias c.modelAliases modelId) c.nextId c.cache
          sources := aupdate (resolveAlias c.modelAliases modelId)
            (w.sourcesOf f.files) c.sources
          nextId := c.nextId + 1
          loaderCalls := c.loaderCalls + 1 } := by
  rcases hcond with hch | hnone
  · simp [ModelCache.getModelWithSources, ModelFactory.modelChanged, hf, hch, hbuild]
  · simp [ModelCache.getModelWithSources, ModelFactory.modelChanged, hf, hnone, hbuild]

theorem get_raise {w : World} {modelId : String} {c : ModelCache} {f : ModelFactory}
    (hf : alookup (resolveAlias c.modelAliases modelId) c.factories = some f)
    (hcond : (FileChangeMonitor.changed w.fingerprint f.files f.tracker).1 = true ∨
      alookup (resolveAlias c.modelAliases modelId) c.cache = none)
    (hbuild : w.buildOk f.files = false) :
    ModelCache.getModelWithSources w modelId c =
      CallResult.raised PyErr.loaderError
        { modelAliases := c.modelAliases
          factories := aupdate (resolveAlias c.modelAliases modelId)
            ⟨f.files, (FileChangeMonitor.changed w.fingerprint f.files f.tracker).2⟩
            c.factories
          cache := c.cache
          sources := c.sources
          nextId := c.nextId
          loaderCalls := c.loaderCalls + 1 } := by
  rcases hcond with hch | hnone
  · simp [ModelCache.getModelWithSources, ModelFactory.modelChanged, hf, hch, hbuild]
  · simp [ModelCache.getModelWithSources, ModelFactory.modelChanged, hf, hnone, hbuild]

theorem get_hit {w : World} {modelId : String} {c : ModelCache} {f : ModelFactory}
    {m s : Nat}
    (hf : alookup (resolveAlias c.modelAliases modelId) c.factories = some f)
    (hfp : ∀ q ∈ f.files, alookup q f.tracker.fingerprints = some (w.fingerprint q))
    (hc : alookup (resolveAlias c.modelAliases modelId) c.cache = some m)
    (hs : alookup (resolveAlias c.modelAliases modelId) c.sources = some s) :
    ModelCache.getModelWithSources w modelId c = CallResult.ok (some m) (some s) c := by
  have hchm := changed_of_unchanged w.fingerprint f.files f.tracker hfp
  have hupd : aupdate (resolveAlias c.modelAliases modelId) f c.factories = c.factories :=
    aupdate_self hf
  simp [ModelCache.getModelWithSources, ModelFactory.modelChanged, hf, hchm, hc, hs, hupd]

theorem get_keyerror {w : World} {modelId : String} {c : ModelCache} {f : ModelFactory}
    {m : Nat}
    (hf : alookup (resolveAlias c.modelAliases modelId) c.factories = some f)
    (hfp : ∀ q ∈ f.files, alookup q f.tracker.fingerprints = some (w.fingerprint q))
    (hc : alookup (resolveAlias c.modelAliases modelId) c.cache = some m)
    (hs : alookup (resolveAlias c.modelAliases modelId) c.sources = none) :
    ModelCache.getModelWithSources w modelId c = CallResult.raised PyErr.keyError c := by
  have hchm := changed_of_unchanged w.fingerprint f.files f.tracker hfp
  have hupd : aupdate (resolveAlias c.modelAliases modelId) f c.factories = c.factories :=
    aupdate_self hf
  simp [ModelCache.getModelWithSources, ModelFactory.modelChanged, hf, hchm, hc, hs, hupd]

theorem get_ok_post {w : World} {modelId : String} {c c1 : ModelCache} {m : Nat}
    {so : Option Nat}
    (h : ModelCache.getModelWithSources w modelId c = CallResult.ok (some m) so c1) :
    c1.modelAliases = c.modelAliases ∧
    ∃ f1 s, so = some s ∧
      alookup (resolveAlias c.modelAliases modelId) c1.factories = some f1 ∧
      (∀ p ∈ f1.files, alookup p f1.tracker.fingerprints = some (w.fingerprint p)) ∧
      alookup (resolveAlias c.modelAliases modelId) c1.cache = some m ∧
      alookup (resolveAlias c.modelAliases modelId) c1.sources = some s := by
  rcases hfac : alookup (resolveAlias c.modelAliases modelId) c.factories with _ | f
  · rw [get_unknown hfac] at h
    simp at h
  · by_cases hch : (FileChangeMonitor.changed w.fingerprint f.files f.tracker).1 = true
    · rcases hbuild : w.buildOk f.files with _ | _
      · rw [get_raise hfac (Or.inl hch) hbuild] at h
        simp at h
      · rw [get_rebuild hfac (Or.inl hch) hbuild] at h
        obtain ⟨hm, hso, hc1⟩ := CallResult.ok.inj h
        refine ⟨by rw [← hc1], ⟨f.files,
          (FileChangeMonitor.changed w.fingerprint f.files f.tracker).2⟩,
          w.sourcesOf f.files, hso.symm, ?_, ?_, ?_, ?_⟩
        · rw [← hc1]
          exact alookup_aupdate_self _ _ _
        · intro p hp
          simp only [changed_snd_lookup, hp, if_pos]
        · rw [← hc1]
          exact hm ▸ alookup_aupdate_self _ _ _
        · rw [← hc1]
          exact alookup_aupdate_self _ _ _
    · have hch' : (FileChangeMonitor.changed w.fingerprint f.files f.tracker).1 = false :=
        Bool.not_eq_true _ ▸ by simpa using hch
      have hfp := (changed_false_iff w.fingerprint f.files f.tracker).1 hch'
      rcases hcc : alookup (resolveAlias c.modelAliases modelId) c.cache with _ | mc
      · rcases hbuild : w.buildOk f.files with _ | _
        · rw [get_raise hfac (Or.inr hcc) hbuild] at h
          simp at h
        · rw [get_rebuild hfac (Or.inr hcc) hbuild] at h
          obtain ⟨hm, hso, hc1⟩ := CallResult.ok.inj h
          refine ⟨by rw [← hc1], ⟨f.files,
            (FileChangeMonitor.changed w.fingerprint f.files f.tracker).2⟩,
            w.sourcesOf f.files, hso.symm, ?_, ?_, ?_, ?_⟩
          · rw [← hc1]
            exact alookup_aupdate_self _ _ _
          · intro p hp
            simp only [changed_snd_lookup, hp, if_pos]
          · rw [← hc1]
            exact hm ▸ alookup_aupdate_self _ _ _
          · rw [← hc1]
            exact alookup_aupdate_self _ _ _
      · rcases hsrc : alookup (resolveAlias c.modelAliases modelId) c.sources with _ | s
        · rw [get_keyerror hfac hfp hcc hsrc] at h
          simp at h
        · rw [get_hit hfac hfp hcc hsrc] at h
          obtain ⟨hm, hso, hc1⟩ := CallResult.ok.inj h
          subst hc1
          exact ⟨rfl, f, s, hso.symm, hfac, hfp, by rw [hm] at hcc; exact hcc, hsrc⟩

theorem get_stable {w : World} {modelId : String} {c c1 : ModelCache} {m : Nat}
    {so : Option Nat}
    (h : ModelCache.getModelWithSources w modelId c = CallResult.ok (some m) so c1) :
    ModelCache.getModelWithSources w modelId c1 = CallResult.ok (some m) so c1 := by
  obtain ⟨ha, f1, s, hso, hf1, hfp, hc1, hs1⟩ := get_ok_post h
  have hrid : resolveAlias c1.modelAliases modelId =
      resolveAlias c.modelAliases modelId := by rw [ha]
  subst hso
  exact get_hit (by rw [hrid]; exact hf1) hfp (by rw [hrid]; exact hc1)
    (by rw [hrid]; exact hs1)

/-- Freshness invariant of the embedding: every model instance stored in the
cache was allocated below the allocation counter, so a newly built instance
is a different object from every cached one. -/
def CacheInv (c : ModelCache) : Prop :=
  ∀ k v, alookup k c.cache = some v → v < c.nextId

theorem cacheInv_preserved {w : World} {modelId : String} {c : ModelCache}
    (hInv : CacheInv c) :
    CacheInv (ModelCache.getModelWithSources w modelId c).stateOf := by
  rcases hfac : alookup (resolveAlias c.modelAliases modelId) c.factories with _ | f
  · rw [get_unknown hfac]
    exact hInv
  · have hre : ∀ (hcond : (FileChangeMonitor.changed w.fingerprint f.files f.tracker).1 =
        true ∨ alookup (resolveAlias c.modelAliases modelId) c.cache = none),
        CacheInv (ModelCache.getModelWithSources w modelId c).stateOf := by
      intro hcond
      rcases hbuild : w.buildOk f.files with _ | _
      · rw [get_raise hfac hcond hbuild]
        exact hInv
      · rw [get_rebuild hfac hcond hbuild]
        simp only [CallResult.stateOf]
        intro k v hv
        by_cases hk : resolveAlias c.modelAliases modelId = k
        · subst hk
          rw [alookup_aupdate_self] at hv
          have := Option.some.inj hv
          show v < c.nextId + 1
          omega
        · rw [alookup_aupdate_ne _ hk] at hv
          have := hInv k v hv
          show v < c.nextId + 1
          omega
    by_cases hch : (FileChangeMonitor.changed w.fingerprint f.files f.tracker).1 = true
    · exact hre (Or.inl hch)
    · have hch' : (FileChangeMonitor.changed w.fingerprint f.files f.tracker).1 = false :=
        Bool.not_eq_true _ ▸ by simpa using hch
      have hfp := (changed_false_iff w.fingerprint f.files f.tracker).1 hch'
      rcases hcc : alookup (resolveAlias c.modelAliases modelId) c.cache with _ | mc
      · exact hre (Or.inr hcc)
      · rcases hsrc : alookup (resolveAlias c.modelAliases modelId) c.sources with _ | s
        · rw [get_keyerror hfac hfp hcc hsrc]
          exact hInv
        · rw [get_hit hfac hfp hcc hsrc]
          exact hInv

theorem get_ok_model_isSome {w : World} {modelId : String} {c c1 : ModelCache}
    {f : ModelFactory} {mo so : Option Nat}
    (hf : alookup (resolveAlias c.modelAliases modelId) c.factories = some f)
    (h : ModelCache.getModelWithSources w modelId c = CallResult.ok mo so c1) :
    mo.isSome = true := by
  have hre : ∀ (hcond : (FileChangeMonitor.changed w.fingerprint f.files f.tracker).1 =
      true ∨ alookup (resolveAlias c.modelAliases modelId) c.cache = none),
      mo.isSome = true := by
    intro hcond
    rcases hbuild : w.buildOk f.files with _ | _
    · rw [get_raise hf hcond hbuild] at h
      simp at h
    · rw [get_rebuild hf hcond hbuild] at h
      obtain ⟨hm, _, _⟩ := CallResult.ok.inj h
      rw [← hm]
      rfl
  by_cases hch : (FileChangeMonitor.changed w.fingerprint f.files f.tracker).1 = true
  · exact hre (Or.inl hch)
  · have hch' : (FileChangeMonitor.changed w.fingerprint f.files f.tracker).1 = false :=
      Bool.not_eq_true _ ▸ by simpa using hch
    have hfp := (changed_false_iff w.fingerprint f.files f.tracker).1 hch'
    rcases hcc : alookup (resolveAlias c.modelAliases modelId) c.cache with _ | mc
    · exact hre (Or.inr hcc)
    · rcases hsrc : alookup (resolveAlias c.modelAliases modelId) c.sources with _ | s
      · rw [get_keyerror hf hfp hcc hsrc] at h
        simp at h
      · rw [get_hit hf hfp hcc hsrc] at h
        obtain ⟨hm, _, _⟩ := CallResult.ok.inj h
        rw [← hm]
        rfl

/-- The `MODEL_ALIASES` table of `magnetic_models/models.py`, verbatim. -/
def MODEL_ALIASES : List (String × String) :=
  [("IGRF", "IGRF13"),
   ("MCO_SHA_2X", "CHAOS-Core"),
   ("CHAOS-6-Core", "CHAOS-Core"),
   ("CHAOS-6-Static", "CHAOS-Static"),
   ("CHAOS-6-MMA-Primary", "CHAOS-MMA-Primary"),
   ("CHAOS-6-MMA-Secondary", "CHAOS-MMA-Secondary")]

/-- The keys of the `MODEL_FACTORIES` table of `magnetic_models/models.py`,
in their source order. -/
def MODEL_FACTORIES_keys : List String :=
  ["IGRF12", "IGRF13", "CHAOS-Static", "CHAOS-Core", "LCS-1", "MF7",
   "MCO_SHA_2C", "MCO_SHA_2D", "MLI_SHA_2C", "MLI_SHA_2D",
   "MMA_SHA_2C-Primary", "MMA_SHA_2C-Secondary",
   "MMA_SHA_2F-Primary", "MMA_SHA_2F-Secondary",
   "MIO_SHA_2C-Primary", "MIO_SHA_2C-Secondary",
   "MIO_SHA_2D-Primary", "MIO_SHA_2D-Secondary",
   "CHAOS-MMA-Primary", "CHAOS-MMA-Secondary"]

/-- The `MODEL_FACTORIES` table: one `ModelFactory` per key, each with a
fresh (empty) `FileChangeMonitor`.  The backing file paths come from the
external eoxmagmod library and the cache configuration (`files.py`), so the
table is parametrized by the resolved file list of each model; no claim
depends on the concrete paths. -/
def MODEL_FACTORIES (fileOf : String → List String) :
    List (String × ModelFactory) :=
  MODEL_FACTORIES_keys.map fun k => (k, ⟨fileOf k, ⟨[]⟩⟩)

/-- `MODEL_LIST = list(MODEL_FACTORIES) + list(MODEL_ALIASES)`. -/
def MODEL_LIST : List String :=
  MODEL_FACTORIES_keys ++ MODEL_ALIASES.map Prod.fst

/-- The module-level singleton
`MODEL_CACHE = ModelCache(MODEL_FACTORIES, MODEL_ALIASES)`: empty model and
sources maps, counters at zero. -/
def MODEL_CACHE (fileOf : String → List String) : ModelCache :=
  { modelAliases := MODEL_ALIASES
    factories := MODEL_FACTORIES fileOf
    cache := []
    sources := []
    nextId := 0
    loaderCalls := 0 }

/-! Embedding of the `vires_update_cached_product` management command.
`Command.add_arguments` declares the positional arguments `product_type`
(a choice) and `source` (`nargs="+"`), so the parsed options handed to
`Command.handle` hold the values under exactly those destination names. -/

/-- A parsed command-line option value. -/
inductive ArgValue where
  | str (s : String)
  | strList (l : List String)
deriving DecidableEq, Repr

/-- The keyword arguments produced by the argument parser declared in
`Command.add_arguments`: the product type under `"product_type"` and the
source list under `"source"`. -/
def commandKwargs (productType : String) (source : List String) :
    List (String × ArgValue) :=
  [("product_type", ArgValue.str productType),
   ("source", ArgValue.strList source)]

/-- Outcome of `Command.handle`: a `KeyError` escaping from a failed
dictionary subscript, a `CommandError`, or a completed
`update_cached_product` call (whose inputs are recorded; its internals are
external to this subsystem and are never reached on the claimed inputs). -/
inductive HandleOutcome where
  | keyError (key : String)
  | commandError (msg : String)
  | updated (source : ArgValue) (productType : String)
deriving DecidableEq, Repr

/-- `Command.handle`, line by line: `kwargs['product_type']`, then
`kwargs['cource']` (as written in the source), then the
`CACHED_PRODUCTS[product_type]` lookup, then the `update_cached_product`
call.  A failed subscript raises `KeyError` at that point and nothing later
runs. -/
def commandHandle (cachedProducts : List (String × String))
    (kwargs : List (String × ArgValue)) : HandleOutcome :=
  match alookup "product_type" kwargs with
  | none => HandleOutcome.keyError "product_type"
  | some productType =>
      match alookup "cource" kwargs with
      | none => HandleOutcome.keyError "cource"
      | some source =>
          match productType with
          | ArgValue.str pt =>
              match alookup pt cachedProducts with
              | none => HandleOutcome.keyError pt
              | some _filename => HandleOutcome.updated source pt
          | ArgValue.strList _ => HandleOutcome.keyError "product_type"

/-! Concrete data used by the witnesses and the counterexample: a single
registered factory `"TEST"` backed by file `"f.dat"`, and three worlds —
the file as first observed, the file touched but its loader broken, and
the touched file with a working loader. -/

/-- A factory for identifier `"TEST"` backed by `"f.dat"`, fresh tracker. -/
def exFactory : ModelFactory := ⟨["f.dat"], ⟨[]⟩⟩

/-- A cache with the single factory `"TEST"` and no aliases, as freshly
constructed. -/
def exCache0 : ModelCache :=
  { modelAliases := []
    factories := [("TEST", exFactory)]
    cache := []
    sources := []
    nextId := 0
    loaderCalls := 0 }

/-- World 1: `"f.dat"` has fingerprint 1, the loader works. -/
def exWorld1 : World := ⟨fun _ => some 1, fun _ => true, fun _ => 7⟩

/-- World 2: `"f.dat"` was touched (fingerprint 2) and the loader raises. -/
def exWorld2 : World := ⟨fun _ => some 2, fun _ => false, fun _ => 7⟩

/-- World 3: fingerprint still 2, the loader works again. -/
def exWorld3 : World := ⟨fun _ => some 2, fun _ => true, fun _ => 7⟩

/-- World 4: `"f.dat"` has disappeared (no fingerprint observable) and the
loader, reading the missing file, raises. -/
def exWorld4 : World := ⟨fun _ => none, fun _ => false, fun _ => 7⟩

/-- The cache state after a first successful `get_model_with_sources("TEST")`
call in `exWorld1`: instance 0 built and stored, fingerprint 1 remembered. -/
def exC1 : ModelCache :=
  { modelAliases := []
    factories := [("TEST", ⟨["f.dat"], ⟨[("f.dat", some 1)]⟩⟩)]
    cache := [("TEST", 0)]
    sources := [("TEST", 7)]
    nextId := 1
    loaderCalls := 1 }

/-- The cache state after a further `get_model_with_sources("TEST")` call in
`exWorld2`: the change (fingerprint 1 → 2) was detected and consumed, the
loader was invoked and raised, the old entry (instance 0, built from
fingerprint 1) is still stored. -/
def exC2 : ModelCache :=
  { modelAliases := []
    factories := [("TEST", ⟨["f.dat"], ⟨[("f.dat", some 2)]⟩⟩)]
    cache := [("TEST", 0)]
    sources := [("TEST", 7)]
    nextId := 1
    loaderCalls := 2 }

/-- File-list assignment used to instantiate the factory table in concrete
witnesses. -/
def exFileOf : String → List String := fun _ => ["f.dat"]

/-- The cache state after a successful rebuild call in `exWorld3` starting
from `exC1`: instance 1 replaces instance 0, fingerprint 2 remembered. -/
def exC3 : ModelCache :=
  { modelAliases := []
    factories := [("TEST", ⟨["f.dat"], ⟨[("f.dat", some 2)]⟩⟩)]
    cache := [("TEST", 1)]
    sources := [("TEST", 7)]
    nextId := 2
    loaderCalls := 2 }

theorem cacheInv_exCache0 : CacheInv exCache0 := by
  intro k v hv
  simp [exCache0, alookup] at hv

theorem cacheInv_exC1 : CacheInv exC1 := by
  intro k v hv
  by_cases hk : "TEST" = k
  · simp [exC1, alookup, hk] at hv
    simp [exC1]
    omega
  · simp [exC1, alookup, hk] at hv

/-- No value of `MODEL_ALIASES` is itself an alias key (no alias chains). -/
theorem model_aliases_no_chain (a v : String)
    (h : alookup a MODEL_ALIASES = some v) : alookup v MODEL_ALIASES = none := by
  have hm := alookup_mem h
  simp only [List.mem_cons, MODEL_ALIASES, List.not_mem_nil, or_false,
    Prod.mk.injEq] at hm
  rcases hm with ⟨rfl, rfl⟩ | ⟨rfl, rfl⟩ | ⟨rfl, rfl⟩ | ⟨rfl, rfl⟩ |
    ⟨rfl, rfl⟩ | ⟨rfl, rfl⟩ <;> decide

/-- Every value of `MODEL_ALIASES` is a key of `MODEL_FACTORIES`. -/
theorem model_alias_value_mem (a v : String)
    (h : alookup a MODEL_ALIASES = some v) : v ∈ MODEL_FACTORIES_keys := by
  have hm := alookup_mem h
  simp only [List.mem_cons, MODEL_ALIASES, List.not_mem_nil, or_false,
    Prod.mk.injEq] at hm
  rcases hm with ⟨rfl, rfl⟩ | ⟨rfl, rfl⟩ | ⟨rfl, rfl⟩ | ⟨rfl, rfl⟩ |
    ⟨rfl, rfl⟩ | ⟨rfl, rfl⟩ <;> decide

/-! The claims. -/

/-- C1 (amended): on every `get_model_with_sources` call that itself detects
a fingerprint change of the backing files, the cached entry is rebuilt
before it is returned — a normal return after an in-call change detection
carries a freshly allocated model instance, distinct from every previously
cached one, and exactly one loader invocation happened.  (The original
claim's parenthetical — that a change whose detection was consumed by an
earlier call whose build raised still forces a rebuild — is refuted by
`stale_model_after_failed_rebuild`.) -/
theorem change_detected_in_call_forces_rebuild
    {w : World} {modelId : String} {c : ModelCache} {f : ModelFactory}
    (hInv : CacheInv c)
    (hf : alookup (resolveAlias c.modelAliases modelId) c.factories = some f)
    (hch : (FileChangeMonitor.changed w.fingerprint f.files f.tracker).1 = true) :
    ∀ mo so c1,
      ModelCache.getModelWithSources w modelId c = CallResult.ok mo so c1 →
      c1.loaderCalls = c.loaderCalls + 1 ∧ mo = some c.nextId ∧
      ∀ v, alookup (resolveAlias c.modelAliases modelId) c.cache = some v →
        mo ≠ some v := by
  intro mo so c1 h
  rcases hbuild : w.buildOk f.files with _ | _
  · rw [get_raise hf (Or.inl hch) hbuild] at h
    simp at h
  · rw [get_rebuild hf (Or.inl hch) hbuild] at h
    obtain ⟨hm, hso, hc1⟩ := CallResult.ok.inj h
    subst hc1
    refine ⟨rfl, hm.symm, ?_⟩
    intro v hv heq
    have hlt := hInv _ v hv
    rw [← hm] at heq
    have := Option.some.inj heq
    omega

/-- Witness for C1's amended theorem: on `exC1` (instance 0 cached, built
from fingerprint 1) in `exWorld3` (fingerprint 2), the change is detected,
exactly one loader invocation happens, and the returned instance 1 differs
from the cached instance 0. -/
theorem change_detected_in_call_forces_rebuild_witness :
    exC3.loaderCalls = exC1.loaderCalls + 1 ∧
    (some 1 : Option Nat) = some exC1.nextId ∧
    (some 1 : Option Nat) ≠ some 0 :=
  have h := @change_detected_in_call_forces_rebuild exWorld3 "TEST" exC1
    ⟨["f.dat"], ⟨[("f.dat", some 1)]⟩⟩ cacheInv_exC1
    (by decide) (by decide) (some 1) (some 7) exC3 (by decide)
  ⟨h.1, h.2.1, h.2.2 0 (by decide)⟩

/-- Counterexample to C1 as stated: a fingerprint change is detected in
`exWorld2` (call 2), whose build raises; the next call (`exWorld3`, same
fingerprints) performs no rebuild and returns the old instance 0 — the
cached entry built under the superseded fingerprint — with the loader-call
counter and the whole state unchanged. -/
theorem stale_model_after_failed_rebuild :
    ModelCache.getModelWithSources exWorld1 "TEST" exCache0 =
      CallResult.ok (some 0) (some 7) exC1 ∧
    ModelCache.getModelWithSources exWorld2 "TEST" exC1 =
      CallResult.raised PyErr.loaderError exC2 ∧
    exC2.loaderCalls = 2 ∧
    ModelCache.getModelWithSources exWorld3 "TEST" exC2 =
      CallResult.ok (some 0) (some 7) exC2 := by
  decide

/-- C2: if the loader raises during `build()` inside
`get_model_with_sources`, the exception propagates uncaught to the caller
and the cached model mapping and cached sources mapping are exactly as
before the call. -/
theorem loader_exception_leaves_cache_unchanged
    {w : World} {modelId : String} {c : ModelCache} {f : ModelFactory}
    (hf : alookup (resolveAlias c.modelAliases modelId) c.factories = some f)
    (hcond : (FileChangeMonitor.changed w.fingerprint f.files f.tracker).1 = true ∨
      alookup (resolveAlias c.modelAliases modelId) c.cache = none)
    (hbuild : w.buildOk f.files = false) :
    (ModelCache.getModelWithSources w modelId c).isRaised = true ∧
    (ModelCache.getModelWithSources w modelId c).stateOf.cache = c.cache ∧
    (ModelCache.getModelWithSources w modelId c).stateOf.sources = c.sources := by
  rw [get_raise hf hcond hbuild]
  exact ⟨rfl, rfl, rfl⟩

/-- Witness for C2: the failing rebuild of `"TEST"` in `exWorld2` raises and
leaves cache and sources as in `exC1`. -/
theorem loader_exception_leaves_cache_unchanged_witness :
    (ModelCache.getModelWithSources exWorld2 "TEST" exC1).isRaised = true ∧
    (ModelCache.getModelWithSources exWorld2 "TEST" exC1).stateOf.cache =
      exC1.cache ∧
    (ModelCache.getModelWithSources exWorld2 "TEST" exC1).stateOf.sources =
      exC1.sources :=
  @loader_exception_leaves_cache_unchanged exWorld2 "TEST" exC1
    ⟨["f.dat"], ⟨[("f.dat", some 1)]⟩⟩
    (by decide) (Or.inl (by decide)) (by decide)

/-- C3: for every identifier whose alias-resolved canonical id is not a key
of the factory table, `get_model_with_sources` returns `(None, None)`
without touching the state and without raising. -/
theorem unknown_model_returns_none_none
    {w : World} {modelId : String} {c : ModelCache}
    (h : alookup (resolveAlias c.modelAliases modelId) c.factories = none) :
    ModelCache.getModelWithSources w modelId c = CallResult.ok none none c :=
  get_unknown h

/-- Witness for C3: the unregistered identifier `"NOPE"`. -/
theorem unknown_model_returns_none_none_witness :
    ModelCache.getModelWithSources exWorld1 "NOPE" exCache0 =
      CallResult.ok none none exCache0 :=
  unknown_model_returns_none_none (by decide)

/-- C4: whenever a call returns a cached model, an immediately following
call with the backing files unchanged (the same world) performs no rebuild:
it returns the identical model instance, the identical sources, and leaves
the state — including the loader-invocation counter — exactly as it was. -/
theorem unchanged_files_second_call_returns_identical_instance
    {w : World} {modelId : String} {c c1 : ModelCache} {m : Nat}
    {so : Option Nat}
    (h : ModelCache.getModelWithSources w modelId c =
      CallResult.ok (some m) so c1) :
    ModelCache.getModelWithSources w modelId c1 =
      CallResult.ok (some m) so c1 :=
  get_stable h

/-- Witness for C4: after the first `"TEST"` call in `exWorld1`, repeating
the call returns instance 0 again with the state `exC1` untouched. -/
theorem unchanged_files_second_call_returns_identical_instance_witness :
    ModelCache.getModelWithSources exWorld1 "TEST" exC1 =
      CallResult.ok (some 0) (some 7) exC1 :=
  @unchanged_files_second_call_returns_identical_instance exWorld1 "TEST"
    exCache0 exC1 0 (some 7) (by decide)

/-- C5: if a backing file's fingerprint changed between two calls, the
second call performs exactly one loader invocation and returns a freshly
allocated instance distinct from the first call's; a third call with no
further change returns the very same result (same instance, same state). -/
theorem fingerprint_change_triggers_exactly_one_rebuild
    {w1 w2 : World} {modelId : String} {c c1 : ModelCache} {m1 : Nat}
    {so : Option Nat} {f1 : ModelFactory} {p : String}
    (hInv : CacheInv c)
    (h1 : ModelCache.getModelWithSources w1 modelId c =
      CallResult.ok (some m1) so c1)
    (hf1 : alookup (resolveAlias c1.modelAliases modelId) c1.factories = some f1)
    (hp : p ∈ f1.files)
    (hchange : w2.fingerprint p ≠ w1.fingerprint p)
    (hbuild : w2.buildOk f1.files = true) :
    (ModelCache.getModelWithSources w2 modelId c1).modelOf = some c1.nextId ∧
    some c1.nextId ≠ some m1 ∧
    ((ModelCache.getModelWithSources w2 modelId c1).stateOf).loaderCalls =
      c1.loaderCalls + 1 ∧
    ModelCache.getModelWithSources w2 modelId
        ((ModelCache.getModelWithSources w2 modelId c1).stateOf) =
      ModelCache.getModelWithSources w2 modelId c1 := by
  obtain ⟨ha, f1', s, hso, hf1', hfp, hc1, hs1⟩ := get_ok_post h1
  rw [← ha] at hf1'
  have hff : f1' = f1 := Option.some.inj (hf1'.symm.trans hf1)
  subst hff
  have hmismatch : alookup p f1'.tracker.fingerprints ≠ some (w2.fingerprint p) := by
    rw [hfp p hp]
    intro hcontra
    exact hchange (Option.some.inj hcontra).symm
  have hch2 : (FileChangeMonitor.changed w2.fingerprint f1'.files f1'.tracker).1 =
      true := changed_true_of_mismatch hp hmismatch
  have h2 := get_rebuild (w := w2) hf1 (Or.inl hch2) hbuild
  have hInv1 : CacheInv c1 := by
    have hpr := @cacheInv_preserved w1 modelId c hInv
    rw [h1] at hpr
    exact hpr
  have hm1lt : m1 < c1.nextId := hInv1 _ m1 (by rw [← ha] at hc1; exact hc1)
  refine ⟨by rw [h2]; rfl, ?_, by rw [h2]; rfl, ?_⟩
  · intro heq
    have := Option.some.inj heq
    omega
  · rw [h2]
    exact get_stable h2

/-- Witness for C5: `"TEST"` built in `exWorld1` (instance 0, state `exC1`),
then called in `exWorld3` where the fingerprint changed from 1 to 2: the
second call returns fresh instance 1 with one more loader call, and a third
call in `exWorld3` reproduces it exactly. -/
theorem fingerprint_change_triggers_exactly_one_rebuild_witness :
    (ModelCache.getModelWithSources exWorld3 "TEST" exC1).modelOf =
      some exC1.nextId ∧
    some exC1.nextId ≠ some 0 ∧
    ((ModelCache.getModelWithSources exWorld3 "TEST" exC1).stateOf).loaderCalls =
      exC1.loaderCalls + 1 ∧
    ModelCache.getModelWithSources exWorld3 "TEST"
        ((ModelCache.getModelWithSources exWorld3 "TEST" exC1).stateOf) =
      ModelCache.getModelWithSources exWorld3 "TEST" exC1 :=
  @fingerprint_change_triggers_exactly_one_rebuild exWorld1 exWorld3 "TEST"
    exCache0 exC1 0 (some 7) ⟨["f.dat"], ⟨[("f.dat", some 1)]⟩⟩ "f.dat"
    cacheInv_exCache0 (by decide) (by decide) (by decide) (by decide) (by decide)

/-- C6: alias resolution is a single-hop lookup with no chains — no value of
`MODEL_ALIASES` is itself an alias key, resolving an already-resolved
identifier changes nothing, and for every alias identifier a
`get_model_with_sources` call on the alias and one on its canonical id are
the very same computation (same returned entry, same state evolution) on
any cache using `MODEL_ALIASES`. -/
theorem alias_resolution_single_hop_idempotent :
    (∀ a v, alookup a MODEL_ALIASES = some v →
      alookup v MODEL_ALIASES = none) ∧
    (∀ modelId, resolveAlias MODEL_ALIASES (resolveAlias MODEL_ALIASES modelId) =
      resolveAlias MODEL_ALIASES modelId) ∧
    (∀ (w : World) (a v : String) (c : ModelCache),
      c.modelAliases = MODEL_ALIASES →
      alookup a MODEL_ALIASES = some v →
      ModelCache.getModelWithSources w a c =
        ModelCache.getModelWithSources w v c) := by
  refine ⟨model_aliases_no_chain, ?_, ?_⟩
  · intro modelId
    rcases h : alookup modelId MODEL_ALIASES with _ | v
    · simp [resolveAlias, h]
    · simp [resolveAlias, h, model_aliases_no_chain _ _ h]
  · intro w a v c hca h
    have h1 : resolveAlias c.modelAliases a = v := by
      simp [resolveAlias, hca, h]
    have h2 : resolveAlias c.modelAliases v = v := by
      simp [resolveAlias, hca, model_aliases_no_chain _ _ h]
    simp only [ModelCache.getModelWithSources, h1, h2]

/-- Witness for C6 at the alias `"IGRF"` (canonical `"IGRF13"`), on the
freshly constructed default cache. -/
theorem alias_resolution_single_hop_idempotent_witness :
    alookup "IGRF13" MODEL_ALIASES = none ∧
    resolveAlias MODEL_ALIASES (resolveAlias MODEL_ALIASES "IGRF") =
      resolveAlias MODEL_ALIASES "IGRF" ∧
    ModelCache.getModelWithSources exWorld1 "IGRF" (MODEL_CACHE exFileOf) =
      ModelCache.getModelWithSources exWorld1 "IGRF13" (MODEL_CACHE exFileOf) :=
  ⟨alias_resolution_single_hop_idempotent.1 "IGRF" "IGRF13" (by decide),
   alias_resolution_single_hop_idempotent.2.1 "IGRF",
   alias_resolution_single_hop_idempotent.2.2 exWorld1 "IGRF" "IGRF13"
     (MODEL_CACHE exFileOf) rfl (by decide)⟩

/-- C7: `FileChangeMonitor.changed` returns `True` whenever some path of the
call has never been observed (no stored fingerprint), and an immediate
repeat of any call, with no file modification in between (same observed
fingerprints), returns `False`. -/
theorem file_change_monitor_first_true_then_false :
    (∀ (fp : String → Fingerprint) (paths : List String)
      (m : FileChangeMonitor) (p : String),
      p ∈ paths → alookup p m.fingerprints = none →
      (FileChangeMonitor.changed fp paths m).1 = true) ∧
    (∀ (fp : String → Fingerprint) (paths : List String)
      (m : FileChangeMonitor),
      (FileChangeMonitor.changed fp paths
        (FileChangeMonitor.changed fp paths m).2).1 = false) := by
  constructor
  · intro fp paths m p hp hnone
    exact changed_true_of_mismatch hp (by simp [hnone])
  · intro fp paths m
    refine (changed_false_iff fp paths _).2 ?_
    intro q hq
    rw [changed_snd_lookup]
    simp [hq]

/-- Witness for C7: a fresh monitor observing `"f.dat"` reports a change,
and repeating the call in the same world reports none. -/
theorem file_change_monitor_first_true_then_false_witness :
    (FileChangeMonitor.changed exWorld1.fingerprint ["f.dat"] ⟨[]⟩).1 = true ∧
    (FileChangeMonitor.changed exWorld1.fingerprint ["f.dat"]
      (FileChangeMonitor.changed exWorld1.fingerprint ["f.dat"] ⟨[]⟩).2).1 =
      false :=
  ⟨file_change_monitor_first_true_then_false.1 exWorld1.fingerprint ["f.dat"]
    ⟨[]⟩ "f.dat" (by decide) (by decide),
   file_change_monitor_first_true_then_false.2 exWorld1.fingerprint ["f.dat"]
    ⟨[]⟩⟩

/-- C8: when a previously fingerprinted backing file can no longer be
observed (it disappeared between checks), the monitor reports a change, so
the next `get_model_with_sources` call performs a rebuild attempt (exactly
one loader invocation) instead of silently ignoring the condition; if that
build then fails, the failure propagates to the caller. -/
theorem missing_file_forces_rebuild_attempt
    {w : World} {modelId : String} {c : ModelCache} {f : ModelFactory}
    {p : String} {t : Nat}
    (hf : alookup (resolveAlias c.modelAliases modelId) c.factories = some f)
    (hp : p ∈ f.files)
    (ht : alookup p f.tracker.fingerprints = some (some t))
    (hmiss : w.fingerprint p = none) :
    (FileChangeMonitor.changed w.fingerprint f.files f.tracker).1 = true ∧
    ((ModelCache.getModelWithSources w modelId c).stateOf).loaderCalls =
      c.loaderCalls + 1 ∧
    (w.buildOk f.files = false →
      ModelCache.getModelWithSources w modelId c =
        CallResult.raised PyErr.loaderError
          ((ModelCache.getModelWithSources w modelId c).stateOf)) := by
  have hch : (FileChangeMonitor.changed w.fingerprint f.files f.tracker).1 =
      true := changed_true_of_mismatch hp (by rw [ht, hmiss]; simp)
  refine ⟨hch, ?_, ?_⟩
  · rcases hbuild : w.buildOk f.files with _ | _
    · rw [get_raise hf (Or.inl hch) hbuild]
      rfl
    · rw [get_rebuild hf (Or.inl hch) hbuild]
      rfl
  · intro hbuild
    rw [get_raise hf (Or.inl hch) hbuild]
    rfl

/-- Witness for C8: `"f.dat"` (fingerprint 1 remembered in `exC1`) has
disappeared in `exWorld4`; the call attempts a rebuild and the loader
failure surfaces. -/
theorem missing_file_forces_rebuild_attempt_witness :
    (FileChangeMonitor.changed exWorld4.fingerprint ["f.dat"]
      ⟨[("f.dat", some 1)]⟩).1 = true ∧
    ((ModelCache.getModelWithSources exWorld4 "TEST" exC1).stateOf).loaderCalls =
      exC1.loaderCalls + 1 ∧
    ModelCache.getModelWithSources exWorld4 "TEST" exC1 =
      CallResult.raised PyErr.loaderError
        ((ModelCache.getModelWithSources exWorld4 "TEST" exC1).stateOf) :=
  have h := @missing_file_forces_rebuild_attempt exWorld4 "TEST" exC1
    ⟨["f.dat"], ⟨[("f.dat", some 1)]⟩⟩ "f.dat" 1
    (by decide) (by decide) (by decide) (by decide)
  ⟨h.1, h.2.1, h.2.2 (by decide)⟩

/-- C9: every invocation of the `vires_update_cached_product` command's
`handle` raises `KeyError` on the subscript `kwargs['cource']` — the parser
stores the positional arguments under `"source"` — before
`update_cached_product` (the `updated` outcome) is ever reached. -/
theorem update_cached_product_handle_keyerror
    (cachedProducts : List (String × String)) (productType : String)
    (source : List String) :
    commandHandle cachedProducts (commandKwargs productType source) =
      HandleOutcome.keyError "cource" := rfl

/-- C10: every value of `MODEL_ALIASES` is a key of `MODEL_FACTORIES` and no
value is itself an alias key; consequently, on any cache state carrying the
default tables (the module-level `MODEL_CACHE` and every state it evolves
into keeps the factory keys), `get_model_with_sources` on an alias
identifier never returns the unknown-model result `(None, None)`. -/
theorem alias_targets_are_factory_keys :
    (∀ pr ∈ MODEL_ALIASES, pr.2 ∈ MODEL_FACTORIES_keys ∧
      alookup pr.2 MODEL_ALIASES = none) ∧
    (∀ (w : World) (a v : String) (c c1 : ModelCache),
      alookup a MODEL_ALIASES = some v →
      c.modelAliases = MODEL_ALIASES →
      (∀ k ∈ MODEL_FACTORIES_keys, (alookup k c.factories).isSome = true) →
      ModelCache.getModelWithSources w a c ≠ CallResult.ok none none c1) := by
  constructor
  · decide
  · intro w a v c c1 ha hca hkeys heq
    have hv : v ∈ MODEL_FACTORIES_keys := model_alias_value_mem a v ha
    have hsome := hkeys v hv
    have hrid : resolveAlias c.modelAliases a = v := by
      simp [resolveAlias, hca, ha]
    rcases hfv : alookup v c.factories with _ | f
    · rw [hfv] at hsome
      simp at hsome
    · have := get_ok_model_isSome (by rw [hrid]; exact hfv) heq
      simp at this

/-- Witness for C10: on the freshly constructed default cache, the alias
`"IGRF"` does not produce the unknown-model result. -/
theorem alias_targets_are_factory_keys_witness :
    ModelCache.getModelWithSources exWorld1 "IGRF" (MODEL_CACHE exFileOf) ≠
      CallResult.ok none none (MODEL_CACHE exFileOf) :=
  alias_targets_are_factory_keys.2 exWorld1 "IGRF" "IGRF13"
    (MODEL_CACHE exFileOf) (MODEL_CACHE exFileOf) (by decide) rfl (by decide)

end ViresModels
